import Mathlib

/-!
Verification development for the z-image-gen repository.

The repository is a CLI wrapper around an external image-generation binary;
its verifiable core is the model/asset acquisition and verification pipeline:

* `src/z_image_gen/config/settings.py` — `Settings.get_output_path` (output naming);
* `src/z_image_gen/config/paths.py` — `get_downloads_folder` (fallback chain);
* `src/z_image_gen/core/model.py` — `MODELS` catalog, `ModelManager`
  (`__init__` lookup, `is_downloaded`, `get_model_path`, `download`, `verify`);
* `generate.py` — `download_file`, `find_sd_cli`, `check_installation`,
  `install`, and the tail of `generate`.

File contents (byte strings) are modelled as `List Nat`; a filesystem is
modelled either as a record of the handful of paths a function touches or as
an association list from path to file size, matching what the corresponding
Python function actually inspects.  External effects (HTTP transfers, the
subprocess call, platform-folder probes) are modelled as explicit inputs
describing their outcome, and raised Python exceptions as explicit error
results.
-/

namespace ZImageGen

/-- Byte content of a file: one `Nat` per byte. -/
abbrev Bytes := List Nat

/-! ## Settings and output naming (`src/z_image_gen/config/settings.py`) -/

/-- From `settings.py`, `Settings`: the fields relevant to output naming.
`output_dir` is the resolved output directory (`__post_init__` fills it from
`get_downloads_folder()` when `None`); the filename template is the default
`"zimage_{seed}_{timestamp}"`, the only template the repository ever uses. -/
structure Settings where
  output_dir : String
deriving DecidableEq

/-- From `settings.py` line 74: `self.filename_template.format(seed=..., timestamp=...)`
instantiated at the repository's only template `"zimage_{seed}_{timestamp}"`:
`str.format` substitutes the two fields into the literal text. -/
def formatFilenameTemplate (seedField timestamp : String) : String :=
  "zimage_" ++ seedField ++ "_" ++ timestamp

/-- From `settings.py` lines 67-79, `Settings.get_output_path`:
`seed=seed if seed >= 0 else "random"`, then `self.output_dir / f"{filename}.png"`.
The returned `Path` is modelled as the pair (directory, final filename). -/
def Settings.get_output_path (s : Settings) (seed : Int) (timestamp : String) :
    String × String :=
  let filename := formatFilenameTemplate
    (if seed ≥ 0 then toString seed else "random") timestamp
  (s.output_dir, filename ++ ".png")

/-! ## The model catalog (`src/z_image_gen/core/model.py`) -/

/-- From `model.py` lines 21-28, `ModelInfo`: metadata of one downloadable model. -/
structure ModelInfo where
  name : String
  filename : String
  url : String
  size_bytes : Nat
  sha256 : Option String := none
deriving DecidableEq

/-- From `model.py` lines 33-38: the `q4_0` catalog entry. -/
def q4_0Info : ModelInfo :=
  { name := "Z-Image-Turbo Q4_0"
    filename := "z_image_turbo-Q4_0.gguf"
    url := "https://huggingface.co/leejet/Z-Image-Turbo-GGUF/resolve/main/z_image_turbo-Q4_0.gguf"
    size_bytes := 3950000000 }

/-- From `model.py` lines 39-44: the `q5_0` catalog entry. -/
def q5_0Info : ModelInfo :=
  { name := "Z-Image-Turbo Q5_0"
    filename := "z_image_turbo-Q5_0.gguf"
    url := "https://huggingface.co/leejet/Z-Image-Turbo-GGUF/resolve/main/z_image_turbo-Q5_0.gguf"
    size_bytes := 4870000000 }

/-- From `model.py` lines 45-50: the `q8_0` catalog entry. -/
def q8_0Info : ModelInfo :=
  { name := "Z-Image-Turbo Q8_0"
    filename := "z_image_turbo-Q8_0.gguf"
    url := "https://huggingface.co/leejet/Z-Image-Turbo-GGUF/resolve/main/z_image_turbo-Q8_0.gguf"
    size_bytes := 7060000000 }

/-- From `model.py` lines 32-51, `MODELS`: the static catalog, in source order. -/
def MODELS : List (String × ModelInfo) :=
  [("q4_0", q4_0Info), ("q5_0", q5_0Info), ("q8_0", q8_0Info)]

/-- Python exception classes raised by the catalog code: `ValueError`
(raised by `ModelManager.__init__` on an unknown key) and the repository's
own `ModelNotFoundError` class (`model.py` lines 202-204, raised elsewhere
for a missing model file, never for an unknown key). -/
inductive PyErr where
  | valueError (msg : String)
  | modelNotFoundError (msg : String)
deriving DecidableEq

/-- Classifier: is this result the repository's not-found error class? -/
def isModelNotFoundErr : Except PyErr ModelInfo → Bool
  | .error (.modelNotFoundError _) => true
  | _ => false

/-- Classifier: is this result a raised `ValueError`? -/
def isValueErr : Except PyErr ModelInfo → Bool
  | .error (.valueError _) => true
  | _ => false

/-- From `model.py` lines 57-69, `ModelManager.__init__`: the catalog lookup.
`if model_type not in MODELS: raise ValueError(f"Unknown model type: ...")`,
otherwise `self.model_info = MODELS[model_type]`. -/
def modelManagerLookup (model_type : String) : Except PyErr ModelInfo :=
  match MODELS.find? (fun e => e.1 == model_type) with
  | some e => .ok e.2
  | none => .error (.valueError ("Unknown model type: " ++ model_type))

/-! ## Streaming downloads (`model.py` `ModelManager.download`, `generate.py` `download_file`) -/

/-- How one streaming HTTP transfer ends, after the chunks below were
delivered: normally; with a `requests.RequestException` raised mid-stream
(network error or read timeout); or with a `KeyboardInterrupt` raised
mid-stream. -/
inductive TransferEnding where
  | complete
  | reqError
  | interrupt
deriving DecidableEq

/-- One streaming HTTP transfer, the external input to a download.
`connectOk = false` models `requests.get` itself raising (connect failure or
timeout) or `raise_for_status` raising on a non-2xx response, before any byte
is written.  Otherwise `chunks` are the chunks `iter_content` delivers before
the transfer ends as `ending` says. -/
structure Transfer where
  connectOk : Bool
  chunks : List Bytes
  ending : TransferEnding
deriving DecidableEq

/-- The two paths `ModelManager.download` touches: the final `model_path`
(`dest`) and the temporary `model_path.with_suffix(".downloading")` (`temp`).
`none` means the file is absent. -/
structure MMFS where
  dest : Option Bytes
  temp : Option Bytes
deriving DecidableEq

/-- How `ModelManager.download` ends: normal return, a raised
`DownloadError`, or a re-raised `KeyboardInterrupt`. -/
inductive DlResult where
  | success
  | downloadError
  | keyboardInterrupt
deriving DecidableEq

/-- From `model.py` lines 88-152, `ModelManager.download`: writes the
streamed chunks to the temporary path, then `shutil.move`s it onto
`model_path` on success; `except requests.RequestException` and
`except KeyboardInterrupt` both delete the temporary file if it exists and
re-raise (the former wrapped as `DownloadError`). -/
def downloadMM (fs : MMFS) (t : Transfer) : DlResult × MMFS :=
  if t.connectOk then
    match t.ending with
    | .complete => (.success, { dest := some t.chunks.flatten, temp := none })
    | .reqError => (.downloadError, { dest := fs.dest, temp := none })
    | .interrupt => (.keyboardInterrupt, { dest := fs.dest, temp := none })
  else
    (.downloadError, { dest := fs.dest, temp := none })

/-- One iteration of the write loop in `ModelManager.download`: a chunk is
appended to the temporary file.  (`if chunk:` skips empty chunks, which
appends nothing and so does not change the content.) -/
def mmWriteStep (s : MMFS) (c : Bytes) : MMFS :=
  { s with temp := some ((s.temp.getD []) ++ c) }

/-- The filesystem states `ModelManager.download` passes through during the
transfer: `open(temp_path, "wb")` truncates the temporary file, then each
chunk is appended to it. -/
def mmWriteTrace (fs : MMFS) (chunks : List Bytes) : List MMFS :=
  chunks.scanl mmWriteStep { fs with temp := some [] }

/-- How `download_file` in `generate.py` ends: a returned boolean, or a
propagated `KeyboardInterrupt` (which is not an `Exception` subclass, so the
`except Exception` handler does not catch it). -/
inductive DFRes where
  | ret (b : Bool)
  | raisedInterrupt
deriving DecidableEq

/-- From `generate.py` lines 80-113, `download_file(url, dest, name)`: opens
`dest` itself with mode "wb" — no temporary path — and writes each chunk
directly to it.  `except Exception` catches the connect failure and a
mid-stream `RequestException` and returns `False` without deleting anything;
a mid-stream `KeyboardInterrupt` propagates, equally without cleanup.  The
destination is modelled by its content (`none` = absent). -/
def download_file (dest : Option Bytes) (t : Transfer) : DFRes × Option Bytes :=
  if t.connectOk then
    match t.ending with
    | .complete => (.ret true, some t.chunks.flatten)
    | .reqError => (.ret false, some t.chunks.flatten)
    | .interrupt => (.raisedInterrupt, some t.chunks.flatten)
  else
    (.ret false, dest)

/-! ## Downloads-folder resolution (`config/paths.py` and `generate.py`) -/

/-- Outcome of the platform probes a downloads-folder resolution makes.
`pdirs` is the result of `platformdirs.user_downloads_dir()` (`none` = the
call raised); `pdirsExists` is whether `Path(result).exists()`; `win` is the
outcome of the `SHGetKnownFolderPath` block (`some p` = the API returned
`hr = 0` with a non-empty path, `none` = it raised or failed);
`homeDownloadsExists` is whether `Path.home() / "Downloads"` exists; `home`
is `Path.home()`. -/
structure PlatformState where
  pdirs : Option String
  pdirsExists : Bool
  isWin32 : Bool
  win : Option String
  homeDownloadsExists : Bool
  home : String
deriving DecidableEq

/-- From `config/paths.py` lines 16-73, `get_downloads_folder()`: try
`platformdirs` (used if it returns a non-empty path that exists), then on
win32 the known-folder API (any exception swallowed), then
`Path.home() / "Downloads"` if it exists, else `Path.home()`. -/
def get_downloads_folder (s : PlatformState) : String :=
  let fb2 := if s.homeDownloadsExists then s.home ++ "/Downloads" else s.home
  let fb1 :=
    if s.isWin32 then
      match s.win with
      | some p => p
      | none => fb2
    else fb2
  match s.pdirs with
  | some p => if (p != "") && s.pdirsExists then p else fb1
  | none => fb1

/-- From `generate.py` lines 38-77, the `get_downloads_folder()` variant:
only the win32 known-folder API is probed (exceptions swallowed), then
`Path.home() / "Downloads"` if it exists, else `Path.home()`. -/
def gen_get_downloads_folder (s : PlatformState) : String :=
  let fb2 := if s.homeDownloadsExists then s.home ++ "/Downloads" else s.home
  if s.isWin32 then
    match s.win with
    | some p => p
    | none => fb2
  else fb2

/-- Modelled from the spec: the resolution chain — the platform Downloads
folder when determinable, then a Downloads subdirectory of the home
directory, then the home directory itself. -/
def downloadsFolderChain (platformProbe : Option String)
    (homeDownloadsExists : Bool) (home : String) : String :=
  match platformProbe with
  | some p => p
  | none => if homeDownloadsExists then home ++ "/Downloads" else home

/-- The platform-Downloads probe `config/paths.py` effectively performs:
first the usable `platformdirs` answer, then (on win32) the known-folder
API answer. -/
def platformProbeOf (s : PlatformState) : Option String :=
  match s.pdirs with
  | some p =>
    if (p != "") && s.pdirsExists then some p
    else if s.isWin32 then s.win else none
  | none => if s.isWin32 then s.win else none

/-! ## Installation state (`generate.py`) -/

/-- The filesystem under the installation base directory: an association
list from relative path to file size in bytes (first entry wins). -/
abbrev InstallFS := List (String × Nat)

/-- `path.stat().st_size`, or `none` when the path does not exist. -/
def statSize (fs : InstallFS) (p : String) : Option Nat :=
  (fs.find? (fun e => e.1 == p)).map (fun e => e.2)

/-- `path.exists()`. -/
def pathExists (fs : InstallFS) (p : String) : Bool :=
  (statSize fs p).isSome

/-- From `generate.py` lines 120-125: the candidate locations `find_sd_cli`
probes, in source order. -/
def sdCliCandidates : List String :=
  ["bin/Release/sd-cli.exe", "bin/sd-cli.exe", "bin/build/bin/Release/sd-cli.exe"]

/-- From `generate.py` lines 116-136, `find_sd_cli(base)`: the first existing
candidate path, else the first `sd-cli.exe` found by `bin_dir.rglob` (the
first matching entry, in the association list order), else `None`. -/
def find_sd_cli (fs : InstallFS) : Option String :=
  match sdCliCandidates.find? (fun p => pathExists fs p) with
  | some p => some p
  | none =>
    (fs.find? (fun e => e.1.startsWith "bin/" && e.1.endsWith "/sd-cli.exe")).map
      (fun e => e.1)

/-- `base / "bin" / "cudart_12.dll"` relative to the base directory. -/
def cudartDllP : String := "bin/cudart_12.dll"

/-- `base / "models" / "z_image_turbo-Q4_0.gguf"`. -/
def diffusionP : String := "models/z_image_turbo-Q4_0.gguf"

/-- `base / "models" / "ae.safetensors"`. -/
def vaeP : String := "models/ae.safetensors"

/-- `base / "models" / "Qwen3-4B-Instruct-2507-Q4_K_M.gguf"`. -/
def llmP : String := "models/Qwen3-4B-Instruct-2507-Q4_K_M.gguf"

/-- From `generate.py` lines 139-181, `check_installation()`: `all_ok`
starts `True` and is knocked to `False` for each required piece that is
missing.  Every probe is a bare existence test (`find_sd_cli`, then
`.exists()` on the CUDA runtime DLL and on each of the three model files);
`st_size` is read only to print sizes, never compared. -/
def check_installation (fs : InstallFS) : Bool :=
  let all_ok := true
  let all_ok := if (find_sd_cli fs).isSome then all_ok else false
  let all_ok := if pathExists fs cudartDllP then all_ok else false
  let all_ok := if pathExists fs diffusionP then all_ok else false
  let all_ok := if pathExists fs vaeP then all_ok else false
  let all_ok := if pathExists fs llmP then all_ok else false
  all_ok

/-- From `model.py` lines 73-75, `ModelManager.is_downloaded`:
`self.model_path.exists() and self.model_path.stat().st_size > 0`.  The file
at `model_path` is modelled by its size (`none` = absent). -/
def is_downloaded (file : Option Nat) : Bool :=
  match file with
  | some size => decide (size > 0)
  | none => false

/-- From `model.py` lines 77-86, `ModelManager.get_model_path`: downloads
exactly when `is_downloaded()` is false.  Returns the number of download
(network) calls made. -/
def get_model_path_downloads (file : Option Nat) : Nat :=
  if is_downloaded file then 0 else 1

/-- From `generate.py` line 263: a model asset is skipped by `install()`
(treated as already installed) when its file exists with size strictly above
1,000,000 bytes — the code's minimum-viable-size notion of
present-and-valid. -/
def presentAndValid (fs : InstallFS) (p : String) : Bool :=
  match statSize fs p with
  | some size => decide (size > 1000000)
  | none => false

/-- Outcomes of the external operations `install()` may perform: whether
each `download_file` call would return `True`, and whether each
`zipfile.extractall` call would succeed rather than raise. -/
structure InstallEnv where
  sdCliDl : Bool
  sdCliExtract : Bool
  cudaDl : Bool
  cudaExtract : Bool
  diffusionDl : Bool
  vaeDl : Bool
  llmDl : Bool
deriving DecidableEq

/-- From `generate.py` lines 254-258: the model table of `install()` —
display name (also the `name` passed to `download_file`) and target path. -/
def installModels : List (String × String) :=
  [("diffusion model", diffusionP), ("VAE", vaeP), ("LLM/text encoder", llmP)]

/-- The network download calls the model loop of `install()` performs
(lines 260-269): one per model not skipped by the size check.  A failed
model download only prints a warning; it changes neither the loop nor the
return value. -/
def installModelsCalls (fs : InstallFS) : List String :=
  installModels.foldl
    (fun acc e => if presentAndValid fs e.2 then acc else acc ++ [e.1]) []

/-- Steps [2/5] onward of `install()` (lines 231-276): the CUDA runtime
archive (download + extract, aborting with `False` on failure), then the
model loop, then `check_installation()` (filesystem only) and `return True`.
Returns the final result and the download calls made, in order. -/
def installCudaStep (fs : InstallFS) (env : InstallEnv) (calls : List String) :
    Bool × List String :=
  if pathExists fs cudartDllP then
    (true, calls ++ installModelsCalls fs)
  else
    if env.cudaDl then
      if env.cudaExtract then (true, (calls ++ ["CUDA runtime"]) ++ installModelsCalls fs)
      else (false, calls ++ ["CUDA runtime"])
    else (false, calls ++ ["CUDA runtime"])

/-- From `generate.py` lines 184-276, `install()`: step [1/5] — if
`find_sd_cli` finds nothing, download the sd-cli archive and extract it,
returning `False` (aborting every later step) if either fails — then the
remaining steps via `installCudaStep`. -/
def install (fs : InstallFS) (env : InstallEnv) : Bool × List String :=
  match find_sd_cli fs with
  | some _ => installCudaStep fs env []
  | none =>
    if env.sdCliDl then
      if env.sdCliExtract then installCudaStep fs env ["stable-diffusion.cpp"]
      else (false, ["stable-diffusion.cpp"])
    else (false, ["stable-diffusion.cpp"])

/-- The sd-cli and CUDA archive steps succeed (each skipped because already
present, or downloaded and extracted successfully). -/
def archStepsOk (fs : InstallFS) (env : InstallEnv) : Bool :=
  ((find_sd_cli fs).isSome || (env.sdCliDl && env.sdCliExtract)) &&
    (pathExists fs cudartDllP || (env.cudaDl && env.cudaExtract))

/-- The download calls of the two archive steps. -/
def archCalls (fs : InstallFS) : List String :=
  (if (find_sd_cli fs).isSome then [] else ["stable-diffusion.cpp"]) ++
    (if pathExists fs cudartDllP then [] else ["CUDA runtime"])

/-- All cataloged assets are present-and-valid in the sense the code itself
uses to skip work: sd-cli locatable, the CUDA runtime DLL present, and each
model file present with size above the 1,000,000-byte threshold. -/
def allAssetsValid (fs : InstallFS) : Bool :=
  (find_sd_cli fs).isSome && pathExists fs cudartDllP &&
    presentAndValid fs diffusionP && presentAndValid fs vaeP &&
    presentAndValid fs llmP

/-- Re-sizing every file without touching which paths exist: used to state
that `check_installation` is independent of file sizes. -/
def mapSizes (g : String → Nat → Nat) (fs : InstallFS) : InstallFS :=
  fs.map (fun e => (e.1, g e.1 e.2))

/-- An `InstallEnv` in which every external operation succeeds. -/
def envAllOk : InstallEnv :=
  { sdCliDl := true
    sdCliExtract := true
    cudaDl := true
    cudaExtract := true
    diffusionDl := true
    vaeDl := true
    llmDl := true }

/-- A concrete filesystem with every cataloged asset present and valid
(realistic sizes: the models are above the 1,000,000-byte threshold). -/
def fsAllValid : InstallFS :=
  [("bin/sd-cli.exe", 300000000), ("bin/cudart_12.dll", 500000),
    ("models/z_image_turbo-Q4_0.gguf", 3950000000),
    ("models/ae.safetensors", 335000000),
    ("models/Qwen3-4B-Instruct-2507-Q4_K_M.gguf", 2500000000)]

/-- A concrete filesystem holding only the two extracted archives (sd-cli
and the CUDA runtime DLL); the three model files are absent. -/
def fsArchOnly : InstallFS :=
  [("bin/sd-cli.exe", 300000000), ("bin/cudart_12.dll", 500000)]

/-! ## Hash verification (`model.py`, `ModelManager.verify`) -/

/-- The incremental hash interface `hashlib` exposes and `verify` consumes:
an initial state, `update` absorbing one byte string, and `hexdigest`
rendering the final digest.  `hashlib.sha256` itself is external library
code; the repository relies only on this interface, whose defining property
is that absorbing two byte strings in turn equals absorbing their
concatenation. -/
structure HashIface (σ : Type) where
  start : σ
  update : σ → Bytes → σ
  hexdigest : σ → String

/-- Splitting a byte string into successive chunks of `size` bytes (the
last chunk may be shorter), exactly as repeated `f.read(size)` calls yield
it.  `size` is 8192 at the one call site (`verify`, line 172); the `0` case
is unreachable there. -/
def chunkList : Nat → Bytes → List Bytes
  | _, [] => []
  | 0, b :: rest => [b :: rest]
  | size + 1, b :: rest =>
    (b :: rest).take (size + 1) :: chunkList (size + 1) ((b :: rest).drop (size + 1))
termination_by _ l => l.length
decreasing_by simp [List.length_drop]; omega

/-- The hash state after streaming a file through the chunked read loop of
`verify` (lines 170-173): `for chunk in iter(lambda: f.read(8192), b""):
sha256_hash.update(chunk)`. -/
def sha256StreamChunks {σ : Type} (h : HashIface σ) (content : Bytes) : σ :=
  (chunkList 8192 content).foldl h.update h.start

/-- From `model.py` lines 154-175, `ModelManager.verify`: `False` when the
file is absent; with no declared sha256, just `st_size > 0`; with a declared
sha256, stream the file in 8192-byte chunks through the incremental hash and
compare the final hexdigest with the declared value. -/
def verify {σ : Type} (h : HashIface σ) (declaredSha256 : Option String)
    (file : Option Bytes) : Bool :=
  match file with
  | none => false
  | some content =>
    match declaredSha256 with
    | none => decide (content.length > 0)
    | some hval => h.hexdigest (sha256StreamChunks h content) == hval

/-- A concrete instance of the incremental-hash interface, used to witness
the `verify` theorem: the state is the bytes absorbed so far and the digest
renders their sum. -/
def hashConcrete : HashIface Bytes :=
  { start := []
    update := fun s c => s ++ c
    hexdigest := fun s => toString (s.foldl (fun a b => a + b) 0) }

/-! ## Generation tail (`generate.py`, `generate`) -/

/-- Outcome of the `subprocess.run(cmd, ...)` call: it returned (with some
exit code) or it raised. -/
inductive RunOutcome where
  | completed (exitCode : Int)
  | raised
deriving DecidableEq

/-- The external facts the tail of `generate` consults: how the subprocess
call went and whether `output_path.exists()` afterwards. -/
structure GenEnv where
  runOutcome : RunOutcome
  outputExistsAfter : Bool
deriving DecidableEq

/-- The file-existence preconditions `generate` checks before invoking the
engine (lines 290-304). -/
structure GenFS where
  sdCliFound : Bool
  diffusionExists : Bool
  vaeExists : Bool
  llmExists : Bool
deriving DecidableEq

/-- A `GenFS` with every required file present. -/
def genFSAllPresent : GenFS :=
  { sdCliFound := true
    diffusionExists := true
    vaeExists := true
    llmExists := true }

/-- A `GenEnv` in which the subprocess completed (exit code 0) and the
output file exists afterwards. -/
def genEnvRanOk : GenEnv :=
  { runOutcome := .completed 0
    outputExistsAfter := true }

/-- From `generate.py` lines 279-369, `generate`: aborts with `False` when a
required file is missing; then runs sd-cli and returns `True` exactly when
`output_path.exists()` afterwards — the exit code in `result` is never
consulted — and `False` when the call raised.  The `return_path = True`
variant returns the same flag paired with the path. -/
def generateRun (fs : GenFS) (env : GenEnv) : Bool :=
  if !fs.sdCliFound then false
  else if !fs.diffusionExists then false
  else if !fs.vaeExists then false
  else if !fs.llmExists then false
  else
    match env.runOutcome with
    | .completed _ => env.outputExistsAfter
    | .raised => false

/-! ## Helper lemmas -/

/-- `find?` only looks at the predicate values. -/
theorem find?_congrPred {α : Type} (l : List α) (p q : α → Bool)
    (h : ∀ a, p a = q a) : l.find? p = l.find? q := by
  induction l with
  | nil => rfl
  | cons a rest ih =>
    simp only [List.find?]
    rw [h a]
    cases q a
    · exact ih
    · rfl

/-- Re-sizing files does not change which paths exist. -/
theorem pathExists_mapSizes (g : String → Nat → Nat) (fs : InstallFS) (p : String) :
    pathExists (mapSizes g fs) p = pathExists fs p := by
  induction fs with
  | nil => rfl
  | cons e rest ih =>
    simp only [mapSizes, pathExists, statSize, List.map, List.find?]
    cases he : (e.1 == p)
    · simpa [mapSizes, pathExists, statSize] using ih
    · rfl

/-- Re-sizing files does not change what the recursive-glob fallback of
`find_sd_cli` reports. -/
theorem rglobFind_mapSizes (g : String → Nat → Nat) (fs : InstallFS) :
    ((mapSizes g fs).find?
        (fun e => e.1.startsWith "bin/" && e.1.endsWith "/sd-cli.exe")).map (fun e => e.1)
      = (fs.find? (fun e => e.1.startsWith "bin/" && e.1.endsWith "/sd-cli.exe")).map
        (fun e => e.1) := by
  induction fs with
  | nil => rfl
  | cons e rest ih =>
    simp only [mapSizes, List.map, List.find?]
    cases he : (e.1.startsWith "bin/" && e.1.endsWith "/sd-cli.exe")
    · simpa [mapSizes] using ih
    · rfl

/-- Re-sizing files does not change where `find_sd_cli` finds the binary. -/
theorem find_sd_cli_mapSizes (g : String → Nat → Nat) (fs : InstallFS) :
    find_sd_cli (mapSizes g fs) = find_sd_cli fs := by
  have h1 : sdCliCandidates.find? (fun p => pathExists (mapSizes g fs) p)
      = sdCliCandidates.find? (fun p => pathExists fs p) :=
    find?_congrPred _ _ _ (fun p => pathExists_mapSizes g fs p)
  unfold find_sd_cli
  rw [h1, rglobFind_mapSizes]

/-- Every state reachable by iterating the write step keeps the destination
file untouched. -/
theorem scanl_mmWriteStep_dest (cs : List Bytes) (s0 : MMFS) :
    ∀ s ∈ cs.scanl mmWriteStep s0, s.dest = s0.dest := by
  induction cs generalizing s0 with
  | nil =>
    intro s hs
    rw [List.scanl_nil, List.mem_singleton] at hs
    rw [hs]
  | cons c cs ih =>
    intro s hs
    rw [List.scanl_cons, List.singleton_append, List.mem_cons] at hs
    cases hs with
    | inl h => rw [h]
    | inr h => rw [ih (mmWriteStep s0 c) s h]; rfl

/-- Every state the write loop of `ModelManager.download` passes through
keeps the destination file untouched. -/
theorem mmWriteTrace_dest (fs : MMFS) (chunks : List Bytes) :
    ∀ s ∈ mmWriteTrace fs chunks, s.dest = fs.dest := by
  intro s hs
  exact scanl_mmWriteStep_dest chunks { fs with temp := some [] } s hs

/-- Chunking then concatenating gives back the original byte string. -/
theorem chunkList_flatten (n : Nat) (l : Bytes) : (chunkList n l).flatten = l :=
  match n, l with
  | _, [] => by simp [chunkList]
  | 0, _ :: _ => by simp [chunkList]
  | size + 1, b :: rest => by
    have ih := chunkList_flatten (size + 1) ((b :: rest).drop (size + 1))
    rw [chunkList]
    simp only [List.flatten_cons]
    rw [ih]
    exact List.take_append_drop _ _
termination_by l.length
decreasing_by simp [List.length_drop]; omega

/-- Folding an incremental hash over a chunk list absorbs exactly the
concatenation of the chunks. -/
theorem foldl_update_flatten {σ : Type} (h : HashIface σ)
    (hjoin : ∀ s a b, h.update (h.update s a) b = h.update s (a ++ b))
    (hnil : ∀ s, h.update s [] = s) :
    ∀ (chunks : List Bytes) (s : σ), chunks.foldl h.update s = h.update s chunks.flatten := by
  intro chunks
  induction chunks with
  | nil => intro s; simp [hnil]
  | cons c cs ih =>
    intro s
    rw [List.foldl_cons, ih (h.update s c), List.flatten_cons, ← hjoin]

/-! ## The claims -/

/-- C6: `get_output_path(seed = 42, timestamp = "20240101_000000")` yields
the filename `zimage_42_20240101_000000` with suffix `.png` in the resolved
output directory, following the `prefix_seed_timestamp.png` convention. -/
theorem get_output_path_seed42 (s : Settings) :
    (s.get_output_path 42 "20240101_000000").2 = "zimage_42_20240101_000000.png"
    ∧ (s.get_output_path 42 "20240101_000000").1 = s.output_dir :=
  ⟨rfl, rfl⟩

/-- C10: for every negative seed, `Settings.get_output_path` substitutes the
literal string `random` for the seed field, yielding
`zimage_random_<timestamp>.png`; no randomized numeric seed is generated on
this path. -/
theorem get_output_path_negative_seed_random (s : Settings) (seed : Int)
    (timestamp : String) (h : seed < 0) :
    (s.get_output_path seed timestamp).2 = "zimage_random_" ++ timestamp ++ ".png" := by
  have hn : ¬ (seed ≥ 0) := not_le.mpr h
  simp [Settings.get_output_path, formatFilenameTemplate, hn]

/-- Witness for C10 at `seed = -1`. -/
theorem get_output_path_negative_seed_random_witness :
    ((-1 : Int) < 0)
    ∧ ((⟨"out"⟩ : Settings).get_output_path (-1) "20240101_000000").2
        = "zimage_random_" ++ "20240101_000000" ++ ".png" :=
  ⟨by decide,
    get_output_path_negative_seed_random ⟨"out"⟩ (-1) "20240101_000000" (by decide)⟩

/-- C9 (amended): looking up a key absent from the catalog raises
`ValueError` — not a NotFound-style error — and every present key yields its
unique descriptor (the catalog keys are pairwise distinct). -/
theorem lookup_valueerror_on_unknown_key :
    (∀ k : String, k ≠ "q4_0" → k ≠ "q5_0" → k ≠ "q8_0" →
        modelManagerLookup k
            = Except.error (PyErr.valueError ("Unknown model type: " ++ k))
          ∧ isValueErr (modelManagerLookup k) = true)
    ∧ (MODELS.map (fun e => e.1)).Nodup
    ∧ modelManagerLookup "q4_0" = Except.ok q4_0Info
    ∧ modelManagerLookup "q5_0" = Except.ok q5_0Info
    ∧ modelManagerLookup "q8_0" = Except.ok q8_0Info := by
  refine ⟨?_, by decide, rfl, rfl, rfl⟩
  intro k h4 h5 h8
  have e4 : (("q4_0" : String) == k) = false := by
    simp [beq_eq_false_iff_ne]; exact fun he => h4 he.symm
  have e5 : (("q5_0" : String) == k) = false := by
    simp [beq_eq_false_iff_ne]; exact fun he => h5 he.symm
  have e8 : (("q8_0" : String) == k) = false := by
    simp [beq_eq_false_iff_ne]; exact fun he => h8 he.symm
  constructor
  · simp [modelManagerLookup, MODELS, List.find?, e4, e5, e8]
  · simp [modelManagerLookup, MODELS, List.find?, e4, e5, e8, isValueErr]

/-- Witness for C9 at the unknown key `"bogus"`. -/
theorem lookup_valueerror_on_unknown_key_witness :
    (("bogus" : String) ≠ "q4_0" ∧ ("bogus" : String) ≠ "q5_0"
      ∧ ("bogus" : String) ≠ "q8_0")
    ∧ modelManagerLookup "bogus"
        = Except.error (PyErr.valueError ("Unknown model type: " ++ "bogus"))
    ∧ isValueErr (modelManagerLookup "bogus") = true :=
  ⟨⟨by decide, by decide, by decide⟩,
    (lookup_valueerror_on_unknown_key.1 "bogus" (by decide) (by decide) (by decide)).1,
    (lookup_valueerror_on_unknown_key.1 "bogus" (by decide) (by decide) (by decide)).2⟩

/-- C9 counterexample to the claim as stated: the failure raised for an
unknown catalog key is a `ValueError`, not the repository's NotFound-style
error class (`ModelNotFoundError`, reserved for a missing model file). -/
theorem lookup_unknown_key_not_notfound :
    isModelNotFoundErr (modelManagerLookup "bogus") = false
    ∧ isValueErr (modelManagerLookup "bogus") = true := by
  constructor <;> rfl

/-- C1 (amended, restricted to `ModelManager.download`): on any failed or
interrupted transfer — connect failure, non-2xx response, timeout, network
error mid-stream, or an interruption signal mid-stream — the call does not
report success, the destination path holds exactly what it held before the
call, and no temporary `.downloading` file remains; during the transfer the
write loop only ever touches the temporary path, never the destination. -/
theorem download_cleanup_on_failure (fs : MMFS) (t : Transfer)
    (h : t.connectOk = false ∨ t.ending ≠ TransferEnding.complete) :
    (downloadMM fs t).1 ≠ DlResult.success
    ∧ (downloadMM fs t).2.dest = fs.dest
    ∧ (downloadMM fs t).2.temp = none
    ∧ ∀ s ∈ mmWriteTrace fs t.chunks, s.dest = fs.dest := by
  have key : (downloadMM fs t).1 ≠ DlResult.success
      ∧ (downloadMM fs t).2.dest = fs.dest ∧ (downloadMM fs t).2.temp = none := by
    rcases h with h | h
    · simp [downloadMM, h]
    · cases hc : t.connectOk
      · simp [downloadMM, hc]
      · cases he : t.ending
        · exact absurd he h
        · simp [downloadMM, hc, he]
        · simp [downloadMM, hc, he]
  exact ⟨key.1, key.2.1, key.2.2, mmWriteTrace_dest fs t.chunks⟩

/-- Witness for C1 at a transfer failing after one delivered chunk, with a
pre-existing destination file. -/
theorem download_cleanup_on_failure_witness :
    (({ connectOk := true, chunks := [[1, 2]], ending := .reqError } : Transfer).connectOk
        = false
      ∨ ({ connectOk := true, chunks := [[1, 2]], ending := .reqError } : Transfer).ending
        ≠ TransferEnding.complete)
    ∧ ((downloadMM { dest := some [9], temp := some [7] }
          { connectOk := true, chunks := [[1, 2]], ending := .reqError }).1
            ≠ DlResult.success
        ∧ (downloadMM { dest := some [9], temp := some [7] }
            { connectOk := true, chunks := [[1, 2]], ending := .reqError }).2.dest
              = ({ dest := some [9], temp := some [7] } : MMFS).dest
        ∧ (downloadMM { dest := some [9], temp := some [7] }
            { connectOk := true, chunks := [[1, 2]], ending := .reqError }).2.temp = none
        ∧ ∀ s ∈ mmWriteTrace { dest := some [9], temp := some [7] }
            ({ connectOk := true, chunks := [[1, 2]], ending := .reqError } : Transfer).chunks,
              s.dest = ({ dest := some [9], temp := some [7] } : MMFS).dest) :=
  ⟨by decide,
    download_cleanup_on_failure { dest := some [9], temp := some [7] }
      { connectOk := true, chunks := [[1, 2]], ending := .reqError } (by decide)⟩

/-- C1 counterexample to the claim as stated: `download_file` in
`generate.py` writes directly to the destination path (no sentinel-suffixed
temporary), and when the transfer fails mid-stream it returns `False`
leaving the partial content at the destination — here a destination that was
absent before the call holds the partial bytes `[1, 2, 3]` afterwards. -/
theorem download_file_partial_persists :
    download_file none { connectOk := true, chunks := [[1, 2, 3]], ending := .reqError }
      = (DFRes.ret false, some [1, 2, 3])
    ∧ (download_file none
        { connectOk := true, chunks := [[1, 2, 3]], ending := .reqError }).2
      ≠ (none : Option Bytes) := by
  constructor <;> decide

/-- C2 (amended): `check_installation` reports an asset present based solely
on file existence — its verdict is invariant under arbitrary re-sizing of
every file, and it is `true` exactly when all five required pieces exist —
and `ModelManager.is_downloaded` accepts any existing file of nonzero size.
No minimum-viable-size threshold is applied by either check, so a 500-byte
model file is reported present-and-valid. -/
theorem check_installation_existence_only (fs : InstallFS) (g : String → Nat → Nat) :
    check_installation (mapSizes g fs) = check_installation fs
    ∧ check_installation fs
        = ((find_sd_cli fs).isSome && (pathExists fs cudartDllP &&
            (pathExists fs diffusionP && (pathExists fs vaeP && pathExists fs llmP))))
    ∧ (∀ size : Nat, is_downloaded (some size) = true ↔ 0 < size) := by
  refine ⟨?_, ?_, ?_⟩
  · unfold check_installation
    rw [find_sd_cli_mapSizes, pathExists_mapSizes, pathExists_mapSizes,
      pathExists_mapSizes, pathExists_mapSizes]
  · unfold check_installation
    cases (find_sd_cli fs).isSome <;> cases pathExists fs cudartDllP <;>
      cases pathExists fs diffusionP <;> cases pathExists fs vaeP <;>
        cases pathExists fs llmP <;> rfl
  · intro size
    simp [is_downloaded]

/-- C2 counterexample to the claim as stated: a directory whose five
required files all exist with size 500 bytes is reported fully installed by
`check_installation`, and a 500-byte model file is accepted by
`is_downloaded` — not reported absent/invalid. -/
theorem check_installation_accepts_500_byte_files :
    check_installation
        [("bin/sd-cli.exe", 500), ("bin/cudart_12.dll", 500),
          ("models/z_image_turbo-Q4_0.gguf", 500), ("models/ae.safetensors", 500),
          ("models/Qwen3-4B-Instruct-2507-Q4_K_M.gguf", 500)] = true
    ∧ is_downloaded (some 500) = true := by
  constructor <;> decide

/-- C3 (amended): the return value of `install` is `true` exactly when the
sd-cli and CUDA archive steps succeed (or are skipped because already
present), regardless of model download outcomes; when the archive steps
succeed, every model not passing the size check is attempted independently
(a failed model download only prints a warning); and a failed sd-cli step
aborts immediately with `false`, before any remaining asset is attempted. -/
theorem install_result_ignores_model_failures (fs : InstallFS) (env : InstallEnv) :
    (install fs env).1 = archStepsOk fs env
    ∧ (archStepsOk fs env = true →
        install fs env = (true, archCalls fs ++ installModelsCalls fs))
    ∧ (find_sd_cli fs = none → env.sdCliDl = false →
        install fs env = (false, ["stable-diffusion.cpp"])) := by
  obtain ⟨sdl, sext, cdl, cext, ddl, vdl, ldl⟩ := env
  cases hsd : find_sd_cli fs <;>
    cases sdl <;> cases sext <;>
      cases hcu : pathExists fs cudartDllP <;> cases cdl <;> cases cext <;>
        simp_all [install, installCudaStep, archStepsOk, archCalls]

/-- Witness for C3: on an empty filesystem with a failing sd-cli download,
`install` returns `false` having attempted only the sd-cli step. -/
theorem install_result_ignores_model_failures_witness :
    (archStepsOk [] { envAllOk with sdCliDl := false } = true →
      install [] { envAllOk with sdCliDl := false }
        = (true, archCalls [] ++ installModelsCalls []))
    ∧ install [] { envAllOk with sdCliDl := false }
        = (false, ["stable-diffusion.cpp"]) :=
  ⟨(install_result_ignores_model_failures [] _).2.1,
    (install_result_ignores_model_failures [] _).2.2 (by decide) (by decide)⟩

/-- C3 counterexample to the claim as stated: with the archives already
present and the diffusion-model download failing, `install` still returns
`true` (the claim requires `false` when any asset fails); and on an empty
filesystem a failed sd-cli download aborts the run after a single download
call, skipping the remaining absent assets (the claim requires the remaining
assets not to be aborted). -/
theorem install_true_despite_failed_model :
    (install fsArchOnly { envAllOk with diffusionDl := false }).1 = true
    ∧ install [] { envAllOk with sdCliDl := false }
        = (false, ["stable-diffusion.cpp"]) := by
  constructor <;> decide

/-- C4: when every cataloged asset is already present-and-valid (sd-cli
locatable, CUDA runtime present, every model above the size threshold),
re-running `install` performs zero network calls and succeeds, and
`ModelManager.get_model_path` performs zero downloads whenever
`is_downloaded` holds. -/
theorem install_idempotent_no_network (fs : InstallFS) (env : InstallEnv)
    (h : allAssetsValid fs = true) :
    install fs env = (true, [])
    ∧ ∀ size : Nat, is_downloaded (some size) = true →
        get_model_path_downloads (some size) = 0 := by
  constructor
  · unfold allAssetsValid at h
    simp only [Bool.and_eq_true] at h
    obtain ⟨⟨⟨⟨h1, h2⟩, h3⟩, h4⟩, h5⟩ := h
    obtain ⟨p, hp⟩ := Option.isSome_iff_exists.mp h1
    simp [install, hp, installCudaStep, h2, installModelsCalls, installModels,
      h3, h4, h5]
  · intro size hs
    simp [get_model_path_downloads, hs]

/-- Witness for C4 at a filesystem with every asset present and valid. -/
theorem install_idempotent_no_network_witness :
    allAssetsValid fsAllValid = true
    ∧ (install fsAllValid envAllOk = (true, [])
        ∧ ∀ size : Nat, is_downloaded (some size) = true →
            get_model_path_downloads (some size) = 0) :=
  ⟨by decide, install_idempotent_no_network fsAllValid envAllOk (by decide)⟩

/-- C5: with a declared content hash `H`, `verify` reports valid exactly
when the digest of the streamed file equals `H` (invalid on any mismatch):
the 8192-byte chunked streaming absorbs exactly the whole file content, for
any incremental hash whose `update` absorbs concatenations piecewise.  And
when no hash is declared, no hash computation is performed: the verdict is
the same under every hash implementation. -/
theorem verify_streamed_digest_matches {σ : Type} (h : HashIface σ)
    (hjoin : ∀ s a b, h.update (h.update s a) b = h.update s (a ++ b))
    (hnil : ∀ s, h.update s [] = s) (H : String) (content : Bytes) :
    (verify h (some H) (some content) = true
      ↔ h.hexdigest (h.update h.start content) = H)
    ∧ (∀ (σ₂ : Type) (h₂ : HashIface σ₂) (file : Option Bytes),
        verify h none file = verify h₂ none file) := by
  constructor
  · simp only [verify, sha256StreamChunks]
    rw [foldl_update_flatten h hjoin hnil, chunkList_flatten]
    exact beq_iff_eq
  · intro σ₂ h₂ file
    cases file <;> rfl

/-- Witness for C5 at the concrete incremental-hash instance and the
three-byte file `[1, 2, 3]` (whose digest renders as `"6"`). -/
theorem verify_streamed_digest_matches_witness :
    (∀ s a b : Bytes, hashConcrete.update (hashConcrete.update s a) b
        = hashConcrete.update s (a ++ b))
    ∧ (∀ s : Bytes, hashConcrete.update s [] = s)
    ∧ ((verify hashConcrete (some "6") (some [1, 2, 3]) = true
        ↔ hashConcrete.hexdigest (hashConcrete.update hashConcrete.start [1, 2, 3]) = "6")
      ∧ ∀ (σ₂ : Type) (h₂ : HashIface σ₂) (file : Option Bytes),
          verify hashConcrete none file = verify h₂ none file) :=
  ⟨fun s a b => List.append_assoc s a b,
    fun s => List.append_nil s,
    verify_streamed_digest_matches hashConcrete
      (fun s a b => List.append_assoc s a b)
      (fun s => List.append_nil s) "6" [1, 2, 3]⟩

/-- C7: for a completed external-process invocation with every required file
present, `generate` reports success exactly when `output_path` exists
afterwards — the subprocess exit code is never consulted — and whenever the
engine produced no output the report is failure, regardless of every other
signal. -/
theorem generate_success_iff_output_exists (fs : GenFS) (env : GenEnv) (code : Int)
    (hfs : fs.sdCliFound = true ∧ fs.diffusionExists = true ∧ fs.vaeExists = true
      ∧ fs.llmExists = true)
    (hrun : env.runOutcome = RunOutcome.completed code) :
    generateRun fs env = env.outputExistsAfter
    ∧ ∀ (fs₂ : GenFS) (env₂ : GenEnv), env₂.outputExistsAfter = false →
        generateRun fs₂ env₂ = false := by
  obtain ⟨h1, h2, h3, h4⟩ := hfs
  constructor
  · simp [generateRun, h1, h2, h3, h4, hrun]
  · intro fs₂ env₂ hout
    obtain ⟨a, b, c, d⟩ := fs₂
    obtain ⟨ro, oe⟩ := env₂
    cases a <;> cases b <;> cases c <;> cases d <;> cases ro <;>
      simp_all [generateRun]

/-- Witness for C7 at a run with all files present, a completed subprocess
and an existing output file. -/
theorem generate_success_iff_output_exists_witness :
    (genFSAllPresent.sdCliFound = true ∧ genFSAllPresent.diffusionExists = true
      ∧ genFSAllPresent.vaeExists = true ∧ genFSAllPresent.llmExists = true)
    ∧ genEnvRanOk.runOutcome = RunOutcome.completed 0
    ∧ (generateRun genFSAllPresent genEnvRanOk = genEnvRanOk.outputExistsAfter
        ∧ ∀ (fs₂ : GenFS) (env₂ : GenEnv), env₂.outputExistsAfter = false →
            generateRun fs₂ env₂ = false) :=
  ⟨by decide, by decide,
    generate_success_iff_output_exists genFSAllPresent genEnvRanOk 0
      (by decide) (by decide)⟩

/-- C8: downloads-folder resolution is total — it returns a path for every
platform state, raising nothing — and both variants return exactly the first
available element of the chain: the platform Downloads folder when
determinable, else the Downloads subdirectory of the home directory when it
exists, else the home directory itself. -/
theorem downloads_folder_chain_refinement (s : PlatformState) :
    get_downloads_folder s
      = downloadsFolderChain (platformProbeOf s) s.homeDownloadsExists s.home
    ∧ gen_get_downloads_folder s
      = downloadsFolderChain (if s.isWin32 then s.win else none)
          s.homeDownloadsExists s.home := by
  obtain ⟨pd, pde, win32, win, hde, home⟩ := s
  constructor
  · cases pd with
    | none =>
      cases win32 <;> cases win <;> cases hde <;>
        simp [get_downloads_folder, downloadsFolderChain, platformProbeOf]
    | some p =>
      cases hp : (p != "") <;> cases pde <;> cases win32 <;> cases win <;>
        cases hde <;>
          simp [get_downloads_folder, downloadsFolderChain, platformProbeOf, hp]
  · cases win32 <;> cases win <;> cases hde <;>
      simp [gen_get_downloads_folder, downloadsFolderChain]

end ZImageGen
